import Mathlib

/-!
Verification of the timer scheduling engine of the `edx-notifications`
repository (`edx_notifications/timer.py`, `edx_notifications/const.py`).

Timestamps are modelled as integers counting microseconds on the UTC
timeline (Python `datetime` has microsecond resolution).  The persistent
store is modelled as an association list of timer records keyed by `name`
(`name` is the primary key of `SQLNotificationCallbackTimer`).  The store
interface itself (`get_all_active_timers`, `get_notification_timer`,
`save_notification_timer`) is not part of the given sources, only its
callers and the spec are; those three operations are modelled from the
spec and marked as such.
-/

/-- `const.NOTIFICATION_MINIMUM_PERIODICITY_MINS` (`const.py` line 26,
default 60, hourly). -/
def NOTIFICATION_MINIMUM_PERIODICITY_MINS : Int := 60

/-- `MINUTES_IN_A_DAY = 24 * 60` (`const.py` line 31). -/
def MINUTES_IN_A_DAY : Int := 24 * 60

/-- Microseconds in one minute (`timedelta(minutes=1)`). -/
def MICROS_PER_MINUTE : Int := 60000000

/-- Microseconds in one day (`timedelta(days=1)`). -/
def MICROS_PER_DAY : Int := 24 * 60 * 60000000

/-- The result payload returned by a handler's
`notification_timer_callback`: a dict with an `errors` entry (list of
strings, empty or missing modelled as `[]`) and an optional
`reschedule_in_mins` entry (missing or `None` modelled as `none`). -/
structure HandlerResults where
  errors : List String
  reschedule_in_mins : Option Int
deriving DecidableEq

/-- The timer record `NotificationCallbackTimer`, with the fields of
`SQLNotificationCallbackTimer` (`stores/sql/models.py` lines 246-256).
Nullable columns are `Option`s. -/
structure NotificationCallbackTimer where
  name : String
  callback_at : Int
  class_name : String
  context : Option String := none
  is_active : Bool := true
  periodicity_min : Option Int := none
  executed_at : Option Int := none
  err_msg : Option String := none
  results : Option HandlerResults := none
deriving DecidableEq

/-- Python truthiness of an optional integer: `None` and `0` are falsy.
Used for `rerun_delta = rerun_delta if rerun_delta else ...` and
`if rerun_delta:` in `timer.py` lines 61-63. -/
def pyTruthyInt : Option Int → Bool
  | none => false
  | some n => n != 0

/-- The single-quote character, written without an apostrophe literal. -/
def SQ : String := String.singleton (Char.ofNat 39)

/-- Python 2 `str` of a list of strings: `str(["quota exceeded"])`
renders as `[` + single-quoted elements joined by `, ` + `]`.  Used for
`timer.err_msg = str(results[..errors..])` (`timer.py` line 70). -/
def pyStrList (xs : List String) : String :=
  "[" ++ String.intercalate ", " (xs.map (fun s => SQ ++ s ++ SQ)) ++ "]"

/-- An invocable handler: `handler.notification_timer_callback(timer)`;
`Except.error` models an exception raised during invocation. -/
abbrev HandlerUnit := NotificationCallbackTimer → Except String HandlerResults

/-- Handler resolution (`import_module` + `getattr` + `class_()`,
`timer.py` lines 46-50); `Except.error` models an exception raised while
resolving/instantiating the class name. -/
abbrev Resolver := String → Except String HandlerUnit

/-- One store interaction performed while processing a timer: a
`save_notification_timer` call, a resolution attempt of a `class_name`,
or an invocation of the resolved handler on a timer record. -/
inductive StoreEvent where
  | save (t : NotificationCallbackTimer)
  | resolve (class_name : String)
  | invoke (t : NotificationCallbackTimer)
deriving DecidableEq

/-- `timer.py` lines 58-68: the success/soft-failure interpretation of a
handler result, applied to the timer record `t2` (which already carries
`executed_at = now` and `results`).  On no errors: pick
`reschedule_in_mins` if truthy else `periodicity_min`; if that is truthy,
floor it to `NOTIFICATION_MINIMUM_PERIODICITY_MINS`, add it to the
current `callback_at` and reset `executed_at` to `None`.  On errors:
store `str(errors)` in `err_msg`. -/
def applyHandlerResults (t2 : NotificationCallbackTimer)
    (results : HandlerResults) : NotificationCallbackTimer :=
  if results.errors.isEmpty then
    let rerun1 := if pyTruthyInt results.reschedule_in_mins then
        results.reschedule_in_mins
      else t2.periodicity_min
    if pyTruthyInt rerun1 then
      let d0 := rerun1.getD 0
      let d := if NOTIFICATION_MINIMUM_PERIODICITY_MINS ≤ d0 then d0
        else NOTIFICATION_MINIMUM_PERIODICITY_MINS
      { t2 with callback_at := t2.callback_at + d * MICROS_PER_MINUTE,
                executed_at := none }
    else t2
  else
    { t2 with err_msg := some (pyStrList results.errors) }

/-- `timer.py` lines 42-79: processing of one due timer inside
`poll_and_execute_timers`.  Sets `executed_at = now` and saves, then
resolves and invokes the handler inside `try`; on an exception from
resolution or invocation the `except` branch stores `str(ex)` in
`err_msg`, sets `is_active = False` and saves.  Returns the final record
together with the ordered trace of store interactions. -/
def executeTimer (resolver : Resolver) (now : Int)
    (timer : NotificationCallbackTimer) :
    NotificationCallbackTimer × List StoreEvent :=
  let t1 := { timer with executed_at := some now }
  match resolver timer.class_name with
  | .error ex =>
      let t2 := { t1 with err_msg := some ex, is_active := false }
      (t2, [.save t1, .resolve timer.class_name, .save t2])
  | .ok handler =>
      match handler t1 with
      | .error ex =>
          let t2 := { t1 with err_msg := some ex, is_active := false }
          (t2, [.save t1, .resolve timer.class_name, .invoke t1, .save t2])
      | .ok results =>
          let t3 := applyHandlerResults { t1 with results := some results }
            results
          (t3, [.save t1, .resolve timer.class_name, .invoke t1, .save t3])

/-- Modelled from the spec: the Store operation `save_timer(record)`
(spec section 6).  The store implementation is not among the given
sources.  The store is keyed by `name` (the primary key of
`SQLNotificationCallbackTimer`), so saving replaces the record with the
same `name` if present and inserts it otherwise. -/
def save_notification_timer (store : List NotificationCallbackTimer)
    (t : NotificationCallbackTimer) : List NotificationCallbackTimer :=
  if store.any (fun u => u.name == t.name) then
    store.map (fun u => if u.name == t.name then t else u)
  else
    store ++ [t]

/-- Modelled from the spec: the Store operation `get_timer(name)` (spec
section 6), which fails with `NotFoundError` when absent — modelled as
`Option`.  The store implementation is not among the given sources. -/
def get_notification_timer (store : List NotificationCallbackTimer)
    (nm : String) : Option NotificationCallbackTimer :=
  store.find? (fun u => u.name == nm)

/-- Modelled from the spec: the Store query `get_all_active_due_timers`
(spec sections 4.1 step 1 and 6): records with `is_active = true` and
`callback_at` due (at or before now), excluding records whose
`executed_at` in-flight marker is set (spec sections 4.1.e and 8: a timer
with `executed_at` set "will NOT be picked up"; the caller in `timer.py`
line 37 names the result `timers_not_executed`).  The store
implementation is not among the given sources. -/
def get_all_active_timers (now : Int)
    (store : List NotificationCallbackTimer) :
    List NotificationCallbackTimer :=
  store.filter (fun t =>
    t.is_active && decide (t.callback_at ≤ now) && t.executed_at.isNone)

/-- Effect of one store interaction on the store: saves persist, the
resolution and invocation events do not touch the store. -/
def applyEvent (store : List NotificationCallbackTimer) :
    StoreEvent → List NotificationCallbackTimer
  | .save t => save_notification_timer store t
  | .resolve _ => store
  | .invoke _ => store

/-- `timer.py` lines 27-81, `poll_and_execute_timers`: query the active
due timers, then process each one in order with `executeTimer`, applying
each of its store interactions to the store.  Returns the final store
and the concatenated event trace of the whole pass. -/
def pollAndExecuteTimers (resolver : Resolver) (now : Int)
    (store : List NotificationCallbackTimer) :
    List NotificationCallbackTimer × List StoreEvent :=
  (get_all_active_timers now store).foldl
    (fun acc timer =>
      let r := executeTimer resolver now timer
      (r.2.foldl applyEvent acc.1, acc.2 ++ r.2))
    (store, [])

/-- A sequence of scan passes, each with its own resolver behaviour and
current time, applied to a store. -/
def runPasses (passes : List (Resolver × Int))
    (store : List NotificationCallbackTimer) :
    List NotificationCallbackTimer :=
  passes.foldl (fun s p => (pollAndExecuteTimers p.1 p.2 s).1) store

/-- The fixed name of the bootstrap purge timer (`timer.py` line 98). -/
def purgeTimerName : String := "purge-notifications-timer"

/-- `datetime.replace(hour=1, minute=0, second=0, microsecond=0)` on the
UTC timeline (`timer.py` line 95): drop the time of day and set it to
01:00:00.000000. -/
def replaceAt0100 (t : Int) : Int :=
  t - t % MICROS_PER_DAY + 60 * MICROS_PER_MINUTE

/-- The timer record constructed by the registrar (`timer.py` lines
100-106); fields not passed to the constructor stay at their `None`
defaults. -/
def purgeTimerRecord (callback_at : Int) : NotificationCallbackTimer :=
  { name := purgeTimerName,
    callback_at := callback_at,
    class_name := "edx_notifications.callbacks.PurgeNotificationsCallbackHandler",
    is_active := true,
    periodicity_min := some MINUTES_IN_A_DAY }

/-- `timer.py` lines 85-107, `register_purge_notifications_timer`:
compute the first execution time as `now + 1 day` with the time of day
replaced by 01:00 UTC; fetch the timer named
`purge-notifications-timer`; if found do nothing, if not found
(`ItemNotFoundError`) save a freshly constructed record. -/
def register_purge_notifications_timer (now : Int)
    (store : List NotificationCallbackTimer) :
    List NotificationCallbackTimer :=
  let first_execution_at := replaceAt0100 (now + MICROS_PER_DAY)
  match get_notification_timer store purgeTimerName with
  | some _ => store
  | none => save_notification_timer store (purgeTimerRecord first_execution_at)

/-! ## Helper lemmas -/

lemma executeTimer_trace_shape (resolver : Resolver) (now : Int)
    (t : NotificationCallbackTimer) :
    ∃ rest, (executeTimer resolver now t).2 =
      StoreEvent.save { t with executed_at := some now } ::
        StoreEvent.resolve t.class_name :: rest := by
  cases hr : resolver t.class_name with
  | error ex =>
    refine ⟨[StoreEvent.save { t with executed_at := some now, err_msg := some ex, is_active := false }], ?_⟩
    simp [executeTimer, hr]
  | ok handler =>
    cases hh : handler { t with executed_at := some now } with
    | error ex =>
      refine ⟨[StoreEvent.invoke { t with executed_at := some now },
        StoreEvent.save { t with executed_at := some now, err_msg := some ex, is_active := false }], ?_⟩
      simp [executeTimer, hr, hh]
    | ok results =>
      refine ⟨[StoreEvent.invoke { t with executed_at := some now },
        StoreEvent.save (applyHandlerResults { t with executed_at := some now, results := some results } results)], ?_⟩
      simp [executeTimer, hr, hh]

lemma poll_foldl_trace (resolver : Resolver) (now : Int)
    (ts : List NotificationCallbackTimer)
    (s : List NotificationCallbackTimer) (tr : List StoreEvent) :
    (ts.foldl
      (fun acc timer =>
        let r := executeTimer resolver now timer
        (r.2.foldl applyEvent acc.1, acc.2 ++ r.2)) (s, tr)).2 =
    tr ++ (ts.map (fun t => (executeTimer resolver now t).2)).flatten := by
  induction ts generalizing s tr with
  | nil => simp
  | cons t ts ih => simp [List.foldl, ih]

lemma poll_trace_eq (resolver : Resolver) (now : Int)
    (store : List NotificationCallbackTimer) :
    (pollAndExecuteTimers resolver now store).2 =
      ((get_all_active_timers now store).map
        (fun t => (executeTimer resolver now t).2)).flatten := by
  unfold pollAndExecuteTimers
  rw [poll_foldl_trace]
  simp

lemma executeTimer_final_save (resolver : Resolver) (now : Int)
    (t : NotificationCallbackTimer) :
    StoreEvent.save (executeTimer resolver now t).1 ∈
      (executeTimer resolver now t).2 := by
  cases hr : resolver t.class_name with
  | error ex => simp [executeTimer, hr]
  | ok handler =>
    cases hh : handler { t with executed_at := some now } with
    | error ex => simp [executeTimer, hr, hh]
    | ok results => simp [executeTimer, hr, hh]

lemma applyHandlerResults_name (t : NotificationCallbackTimer)
    (rs : HandlerResults) : (applyHandlerResults t rs).name = t.name := by
  simp only [applyHandlerResults]
  repeat' split
  all_goals rfl

lemma applyHandlerResults_is_active (t : NotificationCallbackTimer)
    (rs : HandlerResults) :
    (applyHandlerResults t rs).is_active = t.is_active := by
  simp only [applyHandlerResults]
  repeat' split
  all_goals rfl

lemma applyHandlerResults_err_msg_of_no_errors (t : NotificationCallbackTimer)
    (rs : HandlerResults) (h : rs.errors = []) :
    (applyHandlerResults t rs).err_msg = t.err_msg := by
  simp only [applyHandlerResults, h]
  repeat' split
  all_goals first | rfl | simp_all

lemma executeTimer_fst_name (resolver : Resolver) (now : Int)
    (t : NotificationCallbackTimer) :
    ((executeTimer resolver now t).1).name = t.name := by
  cases hr : resolver t.class_name with
  | error ex => simp [executeTimer, hr]
  | ok handler =>
    cases hh : handler { t with executed_at := some now } with
    | error ex => simp [executeTimer, hr, hh]
    | ok results => simp [executeTimer, hr, hh, applyHandlerResults_name]

lemma executeTimer_save_name (resolver : Resolver) (now : Int)
    (t : NotificationCallbackTimer) (v : NotificationCallbackTimer)
    (hv : StoreEvent.save v ∈ (executeTimer resolver now t).2) :
    v.name = t.name := by
  cases hr : resolver t.class_name with
  | error ex =>
    simp [executeTimer, hr] at hv
    rcases hv with h | h <;> subst h <;> rfl
  | ok handler =>
    cases hh : handler { t with executed_at := some now } with
    | error ex =>
      simp [executeTimer, hr, hh] at hv
      rcases hv with h | h <;> subst h <;> rfl
    | ok results =>
      simp [executeTimer, hr, hh] at hv
      rcases hv with h | h
      · subst h; rfl
      · subst h; simp [applyHandlerResults_name]

lemma save_notification_timer_singleton (t v : NotificationCallbackTimer)
    (h : v.name = t.name) : save_notification_timer [t] v = [v] := by
  simp [save_notification_timer, h]

lemma foldl_applyEvent_singleton (resolver : Resolver) (now : Int)
    (t : NotificationCallbackTimer) :
    ((executeTimer resolver now t).2).foldl applyEvent [t] =
      [(executeTimer resolver now t).1] := by
  cases hr : resolver t.class_name with
  | error ex =>
    simp [executeTimer, hr, applyEvent, save_notification_timer]
  | ok handler =>
    cases hh : handler { t with executed_at := some now } with
    | error ex =>
      simp [executeTimer, hr, hh, applyEvent, save_notification_timer]
    | ok results =>
      simp [executeTimer, hr, hh, applyEvent, save_notification_timer,
        applyHandlerResults_name]

lemma get_all_active_timers_singleton (now : Int)
    (t : NotificationCallbackTimer) (h1 : t.is_active = true)
    (h2 : t.callback_at ≤ now) (h3 : t.executed_at = none) :
    get_all_active_timers now [t] = [t] := by
  simp [get_all_active_timers, h1, h2, h3]

lemma pollAndExecuteTimers_singleton (resolver : Resolver) (now : Int)
    (t : NotificationCallbackTimer) (h1 : t.is_active = true)
    (h2 : t.callback_at ≤ now) (h3 : t.executed_at = none) :
    pollAndExecuteTimers resolver now [t] =
      ([(executeTimer resolver now t).1], (executeTimer resolver now t).2) := by
  unfold pollAndExecuteTimers
  rw [get_all_active_timers_singleton now t h1 h2 h3]
  simp [List.foldl, foldl_applyEvent_singleton]

lemma save_preserves_inactive (s : List NotificationCallbackTimer)
    (v : NotificationCallbackTimer) (nm : String) (hv : v.name ≠ nm)
    (hs : ∀ u ∈ s, u.name = nm → u.is_active = false) :
    ∀ u ∈ save_notification_timer s v, u.name = nm → u.is_active = false := by
  intro u hu hun
  unfold save_notification_timer at hu
  split at hu
  · obtain ⟨w, hw, hwe⟩ := List.mem_map.mp hu
    by_cases hc : w.name == v.name
    · rw [if_pos hc] at hwe
      subst hwe
      exact absurd hun hv
    · rw [if_neg hc] at hwe
      subst hwe
      exact hs w hw hun
  · rcases List.mem_append.mp hu with h | h
    · exact hs u h hun
    · simp only [List.mem_singleton] at h
      subst h
      exact absurd hun hv

lemma foldl_applyEvent_preserves_inactive (evs : List StoreEvent)
    (s : List NotificationCallbackTimer) (nm : String)
    (hevs : ∀ v, StoreEvent.save v ∈ evs → v.name ≠ nm)
    (hs : ∀ u ∈ s, u.name = nm → u.is_active = false) :
    ∀ u ∈ evs.foldl applyEvent s, u.name = nm → u.is_active = false := by
  induction evs generalizing s with
  | nil => exact hs
  | cons e evs ih =>
    cases e with
    | save v =>
      exact ih (save_notification_timer s v)
        (fun w hw => hevs w (List.mem_cons_of_mem _ hw))
        (save_preserves_inactive s v nm (hevs v (List.mem_cons_self _ _)) hs)
    | resolve c =>
      exact ih s (fun w hw => hevs w (List.mem_cons_of_mem _ hw)) hs
    | invoke t =>
      exact ih s (fun w hw => hevs w (List.mem_cons_of_mem _ hw)) hs

lemma due_name_ne_of_inactive (now : Int)
    (store : List NotificationCallbackTimer) (nm : String)
    (hs : ∀ u ∈ store, u.name = nm → u.is_active = false) :
    ∀ u ∈ get_all_active_timers now store, u.name ≠ nm := by
  intro u hu hun
  unfold get_all_active_timers at hu
  obtain ⟨hmem, hprop⟩ := List.mem_filter.mp hu
  simp only [Bool.and_eq_true] at hprop
  have := hs u hmem hun
  rw [this] at hprop
  simp at hprop

lemma poll_foldl_preserves_inactive (resolver : Resolver) (now : Int)
    (ts : List NotificationCallbackTimer)
    (s : List NotificationCallbackTimer) (tr : List StoreEvent) (nm : String)
    (hts : ∀ v ∈ ts, v.name ≠ nm)
    (hs : ∀ u ∈ s, u.name = nm → u.is_active = false) :
    ∀ u ∈ (ts.foldl
      (fun acc timer =>
        let r := executeTimer resolver now timer
        (r.2.foldl applyEvent acc.1, acc.2 ++ r.2)) (s, tr)).1,
      u.name = nm → u.is_active = false := by
  induction ts generalizing s tr with
  | nil => exact hs
  | cons t ts ih =>
    simp only [List.foldl]
    refine ih _ _ (fun v hv => hts v (List.mem_cons_of_mem _ hv)) ?_
    refine foldl_applyEvent_preserves_inactive _ _ _ ?_ hs
    intro v hv
    rw [executeTimer_save_name resolver now t v hv]
    exact hts t (List.mem_cons_self _ _)

lemma poll_preserves_inactive (resolver : Resolver) (now : Int)
    (store : List NotificationCallbackTimer) (nm : String)
    (hs : ∀ u ∈ store, u.name = nm → u.is_active = false) :
    ∀ u ∈ (pollAndExecuteTimers resolver now store).1,
      u.name = nm → u.is_active = false := by
  unfold pollAndExecuteTimers
  exact poll_foldl_preserves_inactive resolver now _ store [] nm
    (due_name_ne_of_inactive now store nm hs) hs

lemma runPasses_preserves_inactive (passes : List (Resolver × Int))
    (store : List NotificationCallbackTimer) (nm : String)
    (hs : ∀ u ∈ store, u.name = nm → u.is_active = false) :
    ∀ u ∈ runPasses passes store, u.name = nm → u.is_active = false := by
  induction passes generalizing store with
  | nil => exact hs
  | cons p passes ih =>
    exact ih _ (poll_preserves_inactive p.1 p.2 store nm hs)

/-! ## Claim theorems -/

/-- C3: for every due timer processed by a scan pass, the record carrying
`executed_at = now` is persisted to the store before the handler
reference is resolved and before the handler is invoked: the pass's event
trace contains the timer's processing block, whose first event is the
save of the in-flight record, followed by the resolution attempt, with
any invocation only later in the block. -/
theorem c3_inflight_marker_persisted_first (resolver : Resolver) (now : Int)
    (store : List NotificationCallbackTimer) (t : NotificationCallbackTimer)
    (ht : t ∈ get_all_active_timers now store) :
    ∃ pre rest post,
      (pollAndExecuteTimers resolver now store).2 =
        pre ++ (StoreEvent.save { t with executed_at := some now } ::
          StoreEvent.resolve t.class_name :: rest) ++ post ∧
      (executeTimer resolver now t).2 =
        StoreEvent.save { t with executed_at := some now } ::
          StoreEvent.resolve t.class_name :: rest := by
  obtain ⟨l1, l2, hsplit⟩ := List.append_of_mem ht
  obtain ⟨rest, hrest⟩ := executeTimer_trace_shape resolver now t
  refine ⟨(l1.map (fun u => (executeTimer resolver now u).2)).flatten, rest,
    (l2.map (fun u => (executeTimer resolver now u).2)).flatten, ?_, hrest⟩
  rw [poll_trace_eq, hsplit]
  simp [hrest]

/-- Witness for C3 at a concrete timer whose resolution raises. -/
theorem c3_witness :
    ∃ pre rest post,
      (pollAndExecuteTimers (fun _ => Except.error "nope") 0
        [{ name := "w3", callback_at := 0, class_name := "cls" }]).2 =
        pre ++ (StoreEvent.save { name := "w3", callback_at := 0, class_name := "cls", executed_at := some 0 } ::
          StoreEvent.resolve "cls" :: rest) ++ post ∧
      (executeTimer (fun _ => Except.error "nope") 0
        { name := "w3", callback_at := 0, class_name := "cls" }).2 =
        StoreEvent.save { name := "w3", callback_at := 0, class_name := "cls", executed_at := some 0 } ::
          StoreEvent.resolve "cls" :: rest :=
  c3_inflight_marker_persisted_first (fun _ => Except.error "nope") 0
    [{ name := "w3", callback_at := 0, class_name := "cls" }]
    { name := "w3", callback_at := 0, class_name := "cls" } (by decide)

/-- C4: a scan pass processes every due timer independently: the pass's
event trace is exactly the concatenation of each due timer's processing
trace (so an exception raised for one timer does not abort the pass or
skip the remaining timers), and for every due timer — including those
whose resolution or invocation raised — the final per-timer state is
persisted to the store during the pass rather than propagated to the
scan driver. -/
theorem c4_pass_processes_all_timers (resolver : Resolver) (now : Int)
    (store : List NotificationCallbackTimer) :
    (pollAndExecuteTimers resolver now store).2 =
      ((get_all_active_timers now store).map
        (fun t => (executeTimer resolver now t).2)).flatten ∧
    ∀ t ∈ get_all_active_timers now store,
      StoreEvent.save (executeTimer resolver now t).1 ∈
        (pollAndExecuteTimers resolver now store).2 := by
  refine ⟨poll_trace_eq resolver now store, ?_⟩
  intro t ht
  rw [poll_trace_eq]
  exact List.mem_flatten.mpr ⟨(executeTimer resolver now t).2,
    List.mem_map.mpr ⟨t, ht, rfl⟩, executeTimer_final_save resolver now t⟩

/-- Witness for C4: a store with two due timers where the first timer's
resolution raises; the second timer's processing is still persisted. -/
theorem c4_witness :
    StoreEvent.save (executeTimer
      (fun c => if c == "bad" then Except.error "boom"
        else Except.ok (fun _ => Except.ok { errors := [], reschedule_in_mins := none })) 0
      { name := "wb", callback_at := 0, class_name := "good" }).1 ∈
    (pollAndExecuteTimers
      (fun c => if c == "bad" then Except.error "boom"
        else Except.ok (fun _ => Except.ok { errors := [], reschedule_in_mins := none })) 0
      [{ name := "wa", callback_at := 0, class_name := "bad" },
       { name := "wb", callback_at := 0, class_name := "good" }]).2 :=
  (c4_pass_processes_all_timers
    (fun c => if c == "bad" then Except.error "boom"
      else Except.ok (fun _ => Except.ok { errors := [], reschedule_in_mins := none })) 0
    [{ name := "wa", callback_at := 0, class_name := "bad" },
     { name := "wb", callback_at := 0, class_name := "good" }]).2
    { name := "wb", callback_at := 0, class_name := "good" } (by decide)

/-- C7: invoking the bootstrap registrar twice against an initially empty
store creates exactly one timer record named
`purge-notifications-timer`: the second invocation finds it and changes
nothing. -/
theorem c7_bootstrap_idempotent (now1 now2 : Int) :
    register_purge_notifications_timer now2
        (register_purge_notifications_timer now1 []) =
      register_purge_notifications_timer now1 [] ∧
    (register_purge_notifications_timer now1 []).countP
        (fun u => u.name == purgeTimerName) = 1 := by
  have h1 : register_purge_notifications_timer now1 [] =
      [purgeTimerRecord (replaceAt0100 (now1 + MICROS_PER_DAY))] := by
    simp [register_purge_notifications_timer, get_notification_timer,
      save_notification_timer]
  constructor
  · rw [h1]
    simp [register_purge_notifications_timer, get_notification_timer,
      purgeTimerRecord, purgeTimerName]
  · rw [h1]
    simp [List.countP_cons, purgeTimerRecord, purgeTimerName]

/-- C10: the record created by the bootstrap registrar on an empty store
is named `purge-notifications-timer`, active, with a periodicity of 1440
minutes, and its first `callback_at` is strictly later than the creation
time, has time of day exactly 01:00:00 UTC, and falls on the day after
the creation date. -/
theorem c10_bootstrap_record_fields (now : Int) :
    register_purge_notifications_timer now [] =
      [purgeTimerRecord (replaceAt0100 (now + MICROS_PER_DAY))] ∧
    (purgeTimerRecord (replaceAt0100 (now + MICROS_PER_DAY))).name =
      "purge-notifications-timer" ∧
    (purgeTimerRecord (replaceAt0100 (now + MICROS_PER_DAY))).is_active = true ∧
    (purgeTimerRecord (replaceAt0100 (now + MICROS_PER_DAY))).periodicity_min =
      some 1440 ∧
    now < replaceAt0100 (now + MICROS_PER_DAY) ∧
    replaceAt0100 (now + MICROS_PER_DAY) % MICROS_PER_DAY =
      60 * MICROS_PER_MINUTE ∧
    replaceAt0100 (now + MICROS_PER_DAY) / MICROS_PER_DAY =
      now / MICROS_PER_DAY + 1 := by
  refine ⟨?_, rfl, rfl, ?_, ?_, ?_, ?_⟩
  · simp [register_purge_notifications_timer, get_notification_timer,
      save_notification_timer]
  · norm_num [purgeTimerRecord, MINUTES_IN_A_DAY]
  · unfold replaceAt0100 MICROS_PER_DAY MICROS_PER_MINUTE
    norm_num
    omega
  · unfold replaceAt0100 MICROS_PER_DAY MICROS_PER_MINUTE
    norm_num
    omega
  · unfold replaceAt0100 MICROS_PER_DAY MICROS_PER_MINUTE
    norm_num
    omega

lemma floor_eq_max (d0 : Int) :
    (if NOTIFICATION_MINIMUM_PERIODICITY_MINS ≤ d0 then d0
      else NOTIFICATION_MINIMUM_PERIODICITY_MINS) =
    max d0 NOTIFICATION_MINIMUM_PERIODICITY_MINS := by
  by_cases h : NOTIFICATION_MINIMUM_PERIODICITY_MINS ≤ d0
  · rw [if_pos h, max_eq_left h]
  · rw [if_neg h, max_eq_right (le_of_lt (not_le.mp h))]

/-- C1 (amended): for an active due timer whose handler succeeds with no
errors and no reschedule override, and whose `periodicity_min` is a
nonzero P, the scan pass advances `callback_at` by
`max P floor` minutes added to the old `callback_at`, and clears
`executed_at` to null.  (The claim as frozen fails at P = 0: Python
truthiness of `if rerun_delta:` treats 0 as "no interval", see the
counterexample.) -/
theorem c1_reschedule_adds_floored_periodicity (resolver : Resolver)
    (now : Int) (t : NotificationCallbackTimer) (handler : HandlerUnit)
    (rs : HandlerResults) (P : Int)
    (hact : t.is_active = true) (hdue : t.callback_at ≤ now)
    (hexec : t.executed_at = none)
    (hres : resolver t.class_name = Except.ok handler)
    (hinv : handler { t with executed_at := some now } = Except.ok rs)
    (herr : rs.errors = []) (hnores : rs.reschedule_in_mins = none)
    (hP : t.periodicity_min = some P) (hPnz : P ≠ 0) :
    (pollAndExecuteTimers resolver now [t]).1 =
      [{ t with callback_at := t.callback_at + max P NOTIFICATION_MINIMUM_PERIODICITY_MINS * MICROS_PER_MINUTE, executed_at := none, results := some rs }] := by
  have hscan := pollAndExecuteTimers_singleton resolver now t hact hdue hexec
  rw [hscan]
  simp only [executeTimer, hres, hinv]
  simp [applyHandlerResults, herr, hnores, pyTruthyInt, hP, hPnz,
    floor_eq_max]

/-- Witness for C1 at P = 120, floor 60, now = 0. -/
theorem c1_witness :
    (pollAndExecuteTimers
      (fun _ => Except.ok (fun _ => Except.ok { errors := [], reschedule_in_mins := none })) 0
      [{ name := "w1", callback_at := 0, class_name := "c", periodicity_min := some 120 }]).1 =
    [{ name := "w1", callback_at := 0 + max 120 NOTIFICATION_MINIMUM_PERIODICITY_MINS * MICROS_PER_MINUTE, class_name := "c", periodicity_min := some 120, executed_at := none, results := some { errors := [], reschedule_in_mins := none } }] :=
  c1_reschedule_adds_floored_periodicity
    (fun _ => Except.ok (fun _ => Except.ok { errors := [], reschedule_in_mins := none })) 0
    { name := "w1", callback_at := 0, class_name := "c", periodicity_min := some 120 }
    (fun _ => Except.ok { errors := [], reschedule_in_mins := none })
    { errors := [], reschedule_in_mins := none } 120
    rfl (by decide) rfl rfl rfl rfl rfl rfl (by decide)

/-- Counterexample to C1 as frozen: a due timer with
`periodicity_min = 0` and a successful handler with no override.  The
claim asserts the new `callback_at` is the old one plus
`max 0 floor = 60` minutes and `executed_at` is null; the code treats 0
as falsy, leaves `callback_at` unchanged and `executed_at` set. -/
theorem c1_counterexample :
    (pollAndExecuteTimers
      (fun _ => Except.ok (fun _ => Except.ok { errors := [], reschedule_in_mins := none })) 0
      [{ name := "x1", callback_at := 0, class_name := "c", periodicity_min := some 0 }]).1 =
    [{ name := "x1", callback_at := 0, class_name := "c", periodicity_min := some 0, executed_at := some 0, results := some { errors := [], reschedule_in_mins := none } }] ∧
    (0 : Int) ≠ 0 + max 0 NOTIFICATION_MINIMUM_PERIODICITY_MINS * MICROS_PER_MINUTE ∧
    (some 0 : Option Int) ≠ none := by
  refine ⟨by decide, by decide, by decide⟩

/-- C5 (amended): for an active due timer whose handler succeeds and
returns a nonzero `reschedule_in_mins` R below the floor, the interval
actually applied is the floor (60 minutes), not R.  (The claim as frozen
fails at R = 0: Python truthiness treats a returned 0 as "no override",
see the counterexample.) -/
theorem c5_floor_applied_to_small_reschedule (resolver : Resolver)
    (now : Int) (t : NotificationCallbackTimer) (handler : HandlerUnit)
    (rs : HandlerResults) (R : Int)
    (hact : t.is_active = true) (hdue : t.callback_at ≤ now)
    (hexec : t.executed_at = none)
    (hres : resolver t.class_name = Except.ok handler)
    (hinv : handler { t with executed_at := some now } = Except.ok rs)
    (herr : rs.errors = []) (hR : rs.reschedule_in_mins = some R)
    (hRnz : R ≠ 0) (hRlt : R < NOTIFICATION_MINIMUM_PERIODICITY_MINS) :
    (pollAndExecuteTimers resolver now [t]).1 =
      [{ t with callback_at := t.callback_at + NOTIFICATION_MINIMUM_PERIODICITY_MINS * MICROS_PER_MINUTE, executed_at := none, results := some rs }] := by
  have hscan := pollAndExecuteTimers_singleton resolver now t hact hdue hexec
  rw [hscan]
  simp only [executeTimer, hres, hinv]
  simp [applyHandlerResults, herr, hR, pyTruthyInt, hRnz, not_le.mpr hRlt]

/-- Witness for C5 at R = 30 < 60, now = 0. -/
theorem c5_witness :
    (pollAndExecuteTimers
      (fun _ => Except.ok (fun _ => Except.ok { errors := [], reschedule_in_mins := some 30 })) 0
      [{ name := "w5", callback_at := 0, class_name := "c" }]).1 =
    [{ name := "w5", callback_at := 0 + NOTIFICATION_MINIMUM_PERIODICITY_MINS * MICROS_PER_MINUTE, class_name := "c", executed_at := none, results := some { errors := [], reschedule_in_mins := some 30 } }] :=
  c5_floor_applied_to_small_reschedule
    (fun _ => Except.ok (fun _ => Except.ok { errors := [], reschedule_in_mins := some 30 })) 0
    { name := "w5", callback_at := 0, class_name := "c" }
    (fun _ => Except.ok { errors := [], reschedule_in_mins := some 30 })
    { errors := [], reschedule_in_mins := some 30 } 30
    rfl (by decide) rfl rfl rfl rfl rfl (by decide) (by decide)

/-- Counterexample to C5 as frozen: a handler returning
`reschedule_in_mins = 0` (0 < floor) on a timer with no
`periodicity_min`.  The claim asserts the floor is applied to
`callback_at`; the code treats the returned 0 as falsy, falls back to
the absent periodicity and performs no reschedule at all. -/
theorem c5_counterexample :
    (pollAndExecuteTimers
      (fun _ => Except.ok (fun _ => Except.ok { errors := [], reschedule_in_mins := some 0 })) 0
      [{ name := "x5", callback_at := 0, class_name := "c" }]).1 =
    [{ name := "x5", callback_at := 0, class_name := "c", executed_at := some 0, results := some { errors := [], reschedule_in_mins := some 0 } }] ∧
    (0 : Int) ≠ 0 + NOTIFICATION_MINIMUM_PERIODICITY_MINS * MICROS_PER_MINUTE := by
  refine ⟨by decide, by decide⟩

/-- C6 (amended): after a soft failure (handler returns a non-empty
`errors` list) the timer keeps `is_active` and `callback_at` unchanged,
keeps `executed_at` set to the in-flight mark (hence any later scan pass
selects nothing from the store), and `err_msg` is set to the Python
string rendering of the errors list — for `errors = ["quota exceeded"]`
that is `str(["quota exceeded"])`, i.e. the text between brackets and
quotes, not the bare error text (see the counterexample). -/
theorem c6_soft_failure_state (resolver : Resolver) (now : Int)
    (t : NotificationCallbackTimer) (handler : HandlerUnit)
    (rs : HandlerResults)
    (hact : t.is_active = true) (hdue : t.callback_at ≤ now)
    (hexec : t.executed_at = none)
    (hres : resolver t.class_name = Except.ok handler)
    (hinv : handler { t with executed_at := some now } = Except.ok rs)
    (herr : rs.errors ≠ []) :
    (pollAndExecuteTimers resolver now [t]).1 =
      [{ t with executed_at := some now, err_msg := some (pyStrList rs.errors), results := some rs }] ∧
    ∀ now2 : Int,
      get_all_active_timers now2 (pollAndExecuteTimers resolver now [t]).1 = [] := by
  have hscan := pollAndExecuteTimers_singleton resolver now t hact hdue hexec
  have hstore : (pollAndExecuteTimers resolver now [t]).1 =
      [{ t with executed_at := some now, err_msg := some (pyStrList rs.errors), results := some rs }] := by
    rw [hscan]
    simp only [executeTimer, hres, hinv]
    simp [applyHandlerResults, herr]
  refine ⟨hstore, ?_⟩
  intro now2
  rw [hstore]
  simp [get_all_active_timers]

/-- Witness for C6 with `errors = ["quota exceeded"]`. -/
theorem c6_witness :
    (pollAndExecuteTimers
      (fun _ => Except.ok (fun _ => Except.ok { errors := ["quota exceeded"], reschedule_in_mins := none })) 7
      [{ name := "w6", callback_at := 3, class_name := "c" }]).1 =
    [{ name := "w6", callback_at := 3, class_name := "c", executed_at := some 7, err_msg := some (pyStrList ["quota exceeded"]), results := some { errors := ["quota exceeded"], reschedule_in_mins := none } }] ∧
    ∀ now2 : Int,
      get_all_active_timers now2 (pollAndExecuteTimers
        (fun _ => Except.ok (fun _ => Except.ok { errors := ["quota exceeded"], reschedule_in_mins := none })) 7
        [{ name := "w6", callback_at := 3, class_name := "c" }]).1 = [] :=
  c6_soft_failure_state
    (fun _ => Except.ok (fun _ => Except.ok { errors := ["quota exceeded"], reschedule_in_mins := none })) 7
    { name := "w6", callback_at := 3, class_name := "c" }
    (fun _ => Except.ok { errors := ["quota exceeded"], reschedule_in_mins := none })
    { errors := ["quota exceeded"], reschedule_in_mins := none }
    rfl (by decide) rfl rfl rfl (by decide)

/-- Counterexample to C6 as frozen: for a handler returning
`{errors: ["quota exceeded"]}` the persisted `err_msg` is
`str(["quota exceeded"])` — the list rendering with brackets and quotes —
and not the bare string "quota exceeded". -/
theorem c6_counterexample :
    (pollAndExecuteTimers
      (fun _ => Except.ok (fun _ => Except.ok { errors := ["quota exceeded"], reschedule_in_mins := none })) 0
      [{ name := "x6", callback_at := 0, class_name := "c" }]).1 =
    [{ name := "x6", callback_at := 0, class_name := "c", executed_at := some 0, err_msg := some (pyStrList ["quota exceeded"]), results := some { errors := ["quota exceeded"], reschedule_in_mins := none } }] ∧
    some (pyStrList ["quota exceeded"]) ≠ some "quota exceeded" := by
  refine ⟨by decide, by decide⟩

/-- C8 (amended): a successful run (no `errors` in the result) leaves
`err_msg` unchanged — the earlier failure detail is NOT cleared back to
null, contrary to the frozen claim (see the counterexample); the success
branch of the code never writes `err_msg`. -/
theorem c8_success_leaves_err_msg_unchanged (resolver : Resolver)
    (now : Int) (t : NotificationCallbackTimer) (handler : HandlerUnit)
    (rs : HandlerResults) (m : String)
    (hact : t.is_active = true) (hdue : t.callback_at ≤ now)
    (hexec : t.executed_at = none)
    (hres : resolver t.class_name = Except.ok handler)
    (hinv : handler { t with executed_at := some now } = Except.ok rs)
    (herr : rs.errors = []) (hprev : t.err_msg = some m) :
    ∀ u ∈ (pollAndExecuteTimers resolver now [t]).1, u.err_msg = some m := by
  have hscan := pollAndExecuteTimers_singleton resolver now t hact hdue hexec
  intro u hu
  rw [hscan] at hu
  simp only [List.mem_singleton] at hu
  subst hu
  have hfst : (executeTimer resolver now t).1 =
      applyHandlerResults { t with executed_at := some now, results := some rs } rs := by
    simp [executeTimer, hres, hinv]
  rw [hfst, applyHandlerResults_err_msg_of_no_errors _ _ herr]
  exact hprev

/-- Witness for C8: a timer with a stale `err_msg` whose handler then
succeeds; the stale message is still on the record the scan pass
produces. -/
theorem c8_witness :
    (pollAndExecuteTimers
      (fun _ => Except.ok (fun _ => Except.ok { errors := [], reschedule_in_mins := none })) 0
      [{ name := "w8", callback_at := 0, class_name := "c", periodicity_min := some 90, err_msg := some "old failure" }]).1 =
    [{ name := "w8", callback_at := 0 + 90 * MICROS_PER_MINUTE, class_name := "c", periodicity_min := some 90, err_msg := some "old failure", executed_at := none, results := some { errors := [], reschedule_in_mins := none } }] ∧
    ({ name := "w8", callback_at := 0 + 90 * MICROS_PER_MINUTE, class_name := "c", periodicity_min := some 90, err_msg := some "old failure", executed_at := none, results := some { errors := [], reschedule_in_mins := none } } : NotificationCallbackTimer).err_msg = some "old failure" :=
  ⟨by decide,
    c8_success_leaves_err_msg_unchanged
      (fun _ => Except.ok (fun _ => Except.ok { errors := [], reschedule_in_mins := none })) 0
      { name := "w8", callback_at := 0, class_name := "c", periodicity_min := some 90, err_msg := some "old failure" }
      (fun _ => Except.ok { errors := [], reschedule_in_mins := none })
      { errors := [], reschedule_in_mins := none } "old failure"
      rfl (by decide) rfl rfl rfl rfl rfl
      { name := "w8", callback_at := 0 + 90 * MICROS_PER_MINUTE, class_name := "c", periodicity_min := some 90, err_msg := some "old failure", executed_at := none, results := some { errors := [], reschedule_in_mins := none } }
      (by decide)⟩

/-- Counterexample to C8 as frozen: a timer with a prior
`err_msg = "old failure"` whose handler then succeeds (no errors,
periodicity 90).  The claim asserts `err_msg` is cleared back to null;
the code leaves it set to "old failure". -/
theorem c8_counterexample :
    (pollAndExecuteTimers
      (fun _ => Except.ok (fun _ => Except.ok { errors := [], reschedule_in_mins := none })) 0
      [{ name := "x8", callback_at := 0, class_name := "c", periodicity_min := some 90, err_msg := some "old failure" }]).1 =
    [{ name := "x8", callback_at := 0 + 90 * MICROS_PER_MINUTE, class_name := "c", periodicity_min := some 90, err_msg := some "old failure", executed_at := none, results := some { errors := [], reschedule_in_mins := none } }] ∧
    (some "old failure" : Option String) ≠ none := by
  refine ⟨by decide, by decide⟩

/-- C2: a timer whose handler resolution or invocation raises is
deactivated (`is_active = false`), the failure detail is persisted in
`err_msg`, `executed_at` keeps the in-flight mark, and after any number
of subsequent scan passes the timer (identified by its name) is still
inactive and is never selected by the due-timer query of any scan
pass. -/
theorem c2_hard_failure_deactivates_permanently (resolver : Resolver)
    (now : Int) (t : NotificationCallbackTimer) (ex : String)
    (hact : t.is_active = true) (hdue : t.callback_at ≤ now)
    (hexec : t.executed_at = none)
    (hfail : resolver t.class_name = Except.error ex ∨
      ∃ handler, resolver t.class_name = Except.ok handler ∧
        handler { t with executed_at := some now } = Except.error ex) :
    (pollAndExecuteTimers resolver now [t]).1 =
      [{ t with executed_at := some now, err_msg := some ex, is_active := false }] ∧
    (∀ passes : List (Resolver × Int),
      ∀ u ∈ runPasses passes (pollAndExecuteTimers resolver now [t]).1,
        u.name = t.name → u.is_active = false) ∧
    (∀ passes : List (Resolver × Int), ∀ now2 : Int,
      ∀ u ∈ get_all_active_timers now2
        (runPasses passes (pollAndExecuteTimers resolver now [t]).1),
        u.name ≠ t.name) := by
  have hfst : (executeTimer resolver now t).1 =
      { t with executed_at := some now, err_msg := some ex, is_active := false } := by
    rcases hfail with h | ⟨handler, h1, h2⟩
    · simp [executeTimer, h]
    · simp [executeTimer, h1, h2]
  have hscan := pollAndExecuteTimers_singleton resolver now t hact hdue hexec
  have hstore : (pollAndExecuteTimers resolver now [t]).1 =
      [{ t with executed_at := some now, err_msg := some ex, is_active := false }] := by
    rw [hscan, hfst]
  have hinact : ∀ v ∈ (pollAndExecuteTimers resolver now [t]).1,
      v.name = t.name → v.is_active = false := by
    rw [hstore]
    intro v hv _
    simp only [List.mem_singleton] at hv
    subst hv
    rfl
  refine ⟨hstore, ?_, ?_⟩
  · intro passes u hu hname
    exact runPasses_preserves_inactive passes _ t.name hinact u hu hname
  · intro passes now2 u hu
    exact due_name_ne_of_inactive now2 _ t.name
      (runPasses_preserves_inactive passes _ t.name hinact) u hu

/-- Witness for C2: a timer whose handler reference cannot be
resolved. -/
theorem c2_witness :
    (pollAndExecuteTimers (fun _ => Except.error "boom") 0
      [{ name := "w2", callback_at := 0, class_name := "ghost" }]).1 =
    [{ name := "w2", callback_at := 0, class_name := "ghost", executed_at := some 0, err_msg := some "boom", is_active := false }] ∧
    (∀ passes : List (Resolver × Int),
      ∀ u ∈ runPasses passes (pollAndExecuteTimers (fun _ => Except.error "boom") 0
        [{ name := "w2", callback_at := 0, class_name := "ghost" }]).1,
        u.name = "w2" → u.is_active = false) ∧
    (∀ passes : List (Resolver × Int), ∀ now2 : Int,
      ∀ u ∈ get_all_active_timers now2
        (runPasses passes (pollAndExecuteTimers (fun _ => Except.error "boom") 0
          [{ name := "w2", callback_at := 0, class_name := "ghost" }]).1),
        u.name ≠ "w2") :=
  c2_hard_failure_deactivates_permanently (fun _ => Except.error "boom") 0
    { name := "w2", callback_at := 0, class_name := "ghost" } "boom"
    rfl (by decide) rfl (Or.inl rfl)

/-- C9: no engine operation reactivates an existing timer.  If every
timer named `nm` in the store is inactive (and one exists), then after a
scan pass — with any resolver behaviour and any current time — and after
a bootstrap registrar invocation, every timer named `nm` is still
inactive. -/
theorem c9_no_reactivation (resolver : Resolver) (now nowR : Int)
    (store : List NotificationCallbackTimer) (nm : String)
    (hex : ∃ u ∈ store, u.name = nm)
    (hin : ∀ u ∈ store, u.name = nm → u.is_active = false) :
    (∀ u ∈ (pollAndExecuteTimers resolver now store).1,
      u.name = nm → u.is_active = false) ∧
    (∀ u ∈ register_purge_notifications_timer nowR store,
      u.name = nm → u.is_active = false) := by
  refine ⟨poll_preserves_inactive resolver now store nm hin, ?_⟩
  intro u hu hun
  unfold register_purge_notifications_timer at hu
  cases hg : get_notification_timer store purgeTimerName with
  | some w =>
    rw [hg] at hu
    exact hin u hu hun
  | none =>
    rw [hg] at hu
    by_cases hnm : nm = purgeTimerName
    · obtain ⟨v, hv, hvn⟩ := hex
      have hcontra : get_notification_timer store purgeTimerName ≠ none := by
        unfold get_notification_timer
        intro hnone
        have hfind := List.find?_eq_none.mp hnone v hv
        rw [hvn, hnm] at hfind
        simp at hfind
      exact absurd hg hcontra
    · have hne : (purgeTimerRecord
          (replaceAt0100 (nowR + MICROS_PER_DAY))).name ≠ nm := by
        simpa [purgeTimerRecord] using Ne.symm hnm
      exact save_preserves_inactive store _ nm hne hin u hu hun

/-- Witness for C9: a store holding one inactive timer named "z9"; it
stays inactive through a scan pass and a registrar invocation. -/
theorem c9_witness :
    (∀ u ∈ (pollAndExecuteTimers (fun _ => Except.error "e") 5
      [{ name := "z9", callback_at := 0, class_name := "c", is_active := false }]).1,
      u.name = "z9" → u.is_active = false) ∧
    (∀ u ∈ register_purge_notifications_timer 5
      [{ name := "z9", callback_at := 0, class_name := "c", is_active := false }],
      u.name = "z9" → u.is_active = false) :=
  c9_no_reactivation (fun _ => Except.error "e") 5 5
    [{ name := "z9", callback_at := 0, class_name := "c", is_active := false }]
    "z9" (by decide) (by decide)
